import Mathlib

/-!
Shallow embedding of the Runny training-plan engine: the services
`server/src/services/trainingPlan.ts` (plan generation, week rescheduling)
and `server/dist/services/autoAdjust.js` (weekly performance analysis and
automatic volume adjustment).

Conventions of the embedding:
* JavaScript numbers are modelled as exact rationals (`ℚ`); integer-valued
  quantities (durations in minutes, day numbers) use `ℤ`/`ℕ`.
* `Math.round` is half-up rounding, `Math.floor` on non-negative values is
  the integer floor.
* Calendar dates are integer day numbers under the convention that a date
  `d` with `d % 7 = 0` falls on a Monday; `startOfWeek(d, weekStartsOn: 1)`
  is then `d - d % 7`, and the `yyyy-MM-dd` string comparisons in the SQL
  queries become integer comparisons.
* The SQLite tables are lists of records: an `INSERT` appends, a `DELETE`
  filters, and an `UPDATE ... WHERE id = ?` over rows selected from the same
  list maps the update over the list.
-/

section

/- The Batteries rational-number operations are `@[irreducible]`, which
blocks `decide` on concrete rational computations; restore default
reducibility for this development. -/
attribute [local semireducible] Rat.add Rat.mul Rat.sub Rat.inv

/-- JavaScript `Math.round`: round half toward positive infinity. -/
def jsRound (q : ℚ) : ℤ := ⌊q + 1/2⌋

/-- `startOfWeek(d, weekStartsOn: 1)` on integer day numbers (a date that is
`0 mod 7` is a Monday). -/
def startOfWeekMon (d : ℤ) : ℤ := d - d % 7

/-- Row of the `RACE_CONFIGS` table (trainingPlan.ts lines 30-35). -/
structure RaceConfig where
  baseWeeks : ℕ
  peakLongRun : ℚ
  peakWeeklyMinutes : ℚ
deriving DecidableEq, Repr

def raceConfig5k : RaceConfig := ⟨8, 45, 150⟩

def raceConfig10k : RaceConfig := ⟨10, 60, 200⟩

def raceConfigHalf : RaceConfig := ⟨12, 90, 280⟩

def raceConfigMarathon : RaceConfig := ⟨16, 150, 360⟩

/-- The `RACE_CONFIGS[key]` lookup, `none` for unknown keys. -/
def raceConfigFind (s : String) : Option RaceConfig :=
  if s = "5k" then some raceConfig5k
  else if s = "10k" then some raceConfig10k
  else if s = "half" then some raceConfigHalf
  else if s = "marathon" then some raceConfigMarathon
  else none

/-- `RACE_CONFIGS[goal.race_distance] || RACE_CONFIGS["5k"]`
(trainingPlan.ts line 160). -/
def raceConfigOf (s : String) : RaceConfig := (raceConfigFind s).getD raceConfig5k

/-- The `EXPERIENCE_MULTIPLIERS[key]` lookup (trainingPlan.ts lines 38-42). -/
def experienceMultiplierFind (s : String) : Option ℚ :=
  if s = "beginner" then some (7/10)
  else if s = "intermediate" then some 1
  else if s = "advanced" then some (13/10)
  else none

/-- `EXPERIENCE_MULTIPLIERS[goal.experience_level] || 1.0`
(trainingPlan.ts line 161; no multiplier in the table is falsy). -/
def experienceMultiplierOf (s : String) : ℚ := (experienceMultiplierFind s).getD 1

/-- `DAY_MAP` (trainingPlan.ts lines 45-53), `none` for unknown day names. -/
def DAY_MAP (s : String) : Option ℕ :=
  if s = "sunday" then some 0
  else if s = "monday" then some 1
  else if s = "tuesday" then some 2
  else if s = "wednesday" then some 3
  else if s = "thursday" then some 4
  else if s = "friday" then some 5
  else if s = "saturday" then some 6
  else none

/-- `d.toLowerCase()`: character-by-character lowercasing. (This is the
same function as `String.toLower`, written over the character list so that
it is kernel-reducible.) -/
def toLowerStr (s : String) : String := ⟨s.data.map Char.toLower⟩

/-- `availableDays.map(d => DAY_MAP[d.toLowerCase()]).filter(d => d !== undefined)`
(trainingPlan.ts line 209 and line 323). -/
def dayNumbersOf (days : List String) : List ℕ :=
  days.filterMap (fun d => DAY_MAP (toLowerStr d))

/-- `Math.max(...l)` for a list of day numbers; the sources only evaluate it
on non-empty lists, where the fold below is exactly the maximum. -/
def listMax (l : List ℕ) : ℕ := l.foldl max 0

/-- The phase-formula part of `calculateWeeklyVolume` (trainingPlan.ts lines
121-144), including the final experience-multiplier scaling.
`Math.floor(totalWeeks * 0.6)` is `3 * totalWeeks / 5` in exact arithmetic,
and `Math.floor(totalWeeks * 0.85)` is `17 * totalWeeks / 20`. -/
def calculateBaseVolume (weekNumber totalWeeks : ℕ) (raceConfig : RaceConfig)
    (experienceMultiplier currentFrequency longestRecentRun : ℚ) : ℚ :=
  let buildPhaseEnd : ℕ := 3 * totalWeeks / 5
  let peakPhaseEnd : ℕ := 17 * totalWeeks / 20
  let baseVolume : ℚ :=
    if weekNumber ≤ buildPhaseEnd then
      let progress : ℚ := (weekNumber : ℚ) / (buildPhaseEnd : ℚ)
      let startVolume := max (currentFrequency * 30) (longestRecentRun * 2)
      startVolume + (raceConfig.peakWeeklyMinutes * (7/10) - startVolume) * progress
    else if weekNumber ≤ peakPhaseEnd then
      let progress : ℚ := ((weekNumber : ℚ) - (buildPhaseEnd : ℚ)) /
        ((peakPhaseEnd : ℚ) - (buildPhaseEnd : ℚ))
      raceConfig.peakWeeklyMinutes * (7/10 + 3/10 * progress)
    else
      let weeksToRace : ℚ := (totalWeeks : ℚ) - (weekNumber : ℚ)
      let taperMultiplier := 2/5 + weeksToRace / ((totalWeeks : ℚ) - (peakPhaseEnd : ℚ)) * (2/5)
      raceConfig.peakWeeklyMinutes * taperMultiplier
  baseVolume * experienceMultiplier

/-- `calculateWeeklyVolume` (trainingPlan.ts lines 113-152): the phase-based
base volume capped at 110% of the recursively computed previous-week volume;
for `weekNumber ≤ 1` the previous-week baseline is `currentFrequency * 30`. -/
def calculateWeeklyVolume : ℕ → ℕ → RaceConfig → ℚ → ℚ → ℚ → ℚ
  | n + 2, totalWeeks, rc, em, cf, lrr =>
    min (calculateBaseVolume (n + 2) totalWeeks rc em cf lrr)
      (calculateWeeklyVolume (n + 1) totalWeeks rc em cf lrr * (11/10))
  | weekNumber, totalWeeks, rc, em, cf, lrr =>
    min (calculateBaseVolume weekNumber totalWeeks rc em cf lrr) ((cf * 30) * (11/10))

/-- C1: for every race configuration, experience multiplier, current
frequency, longest recent run and `totalWeeks ≥ 1`, the weekly volume
satisfies `volume N ≤ 1.1 * volume (N-1)` for every week `N > 1`, and the
week-0 baseline is `currentFrequency * 30`, so
`volume 1 ≤ 1.1 * (currentFrequency * 30)`. -/
theorem c1_weekly_volume_growth_cap
    (rc : RaceConfig) (em cf lrr : ℚ) (totalWeeks : ℕ) (_htw : 1 ≤ totalWeeks) :
    (∀ N : ℕ, 1 < N →
      calculateWeeklyVolume N totalWeeks rc em cf lrr ≤
        (11/10) * calculateWeeklyVolume (N - 1) totalWeeks rc em cf lrr) ∧
    calculateWeeklyVolume 1 totalWeeks rc em cf lrr ≤ (11/10) * (cf * 30) := by
  constructor
  · intro N hN
    obtain ⟨n, rfl⟩ : ∃ n, N = n + 2 := ⟨N - 2, by omega⟩
    have hsub : n + 2 - 1 = n + 1 := by omega
    rw [hsub]
    calc calculateWeeklyVolume (n + 2) totalWeeks rc em cf lrr
        = min (calculateBaseVolume (n + 2) totalWeeks rc em cf lrr)
            (calculateWeeklyVolume (n + 1) totalWeeks rc em cf lrr * (11/10)) := by
          simp [calculateWeeklyVolume]
      _ ≤ calculateWeeklyVolume (n + 1) totalWeeks rc em cf lrr * (11/10) :=
          min_le_right _ _
      _ = (11/10) * calculateWeeklyVolume (n + 1) totalWeeks rc em cf lrr :=
          mul_comm _ _
  · calc calculateWeeklyVolume 1 totalWeeks rc em cf lrr
        = min (calculateBaseVolume 1 totalWeeks rc em cf lrr) ((cf * 30) * (11/10)) := by
          simp [calculateWeeklyVolume]
      _ ≤ (cf * 30) * (11/10) := min_le_right _ _
      _ = (11/10) * (cf * 30) := mul_comm _ _

/-- Witness for C1 at a concrete input: a 10-week 10k plan. -/
theorem c1_weekly_volume_growth_cap_witness :
    1 ≤ (10 : ℕ) ∧ 1 < (2 : ℕ) ∧
    calculateWeeklyVolume 2 10 raceConfig10k 1 3 45 ≤
      (11/10) * calculateWeeklyVolume (2 - 1) 10 raceConfig10k 1 3 45 ∧
    calculateWeeklyVolume 1 10 raceConfig10k 1 3 45 ≤ (11/10) * ((3 : ℚ) * 30) :=
  ⟨by decide, by decide,
    (c1_weekly_volume_growth_cap raceConfig10k 1 3 45 10 (by decide)).1 2 (by decide),
    (c1_weekly_volume_growth_cap raceConfig10k 1 3 45 10 (by decide)).2⟩

/-- A workout archetype (trainingPlan.ts `WorkoutTemplate`, lines 18-27). -/
structure WorkoutTemplate where
  type : String
  title : String
  description : String
  durationMultiplier : ℚ
  intensity : String
  isKeyWorkout : Bool
  isLongRun : Bool
  tiredAlternative : String
deriving DecidableEq, Repr

def easyTemplate : WorkoutTemplate :=
  { type := "easy", title := "Easy Run",
    description := "Run at a comfortable, conversational pace. You should be able to hold a conversation throughout.",
    durationMultiplier := 1, intensity := "low",
    isKeyWorkout := false, isLongRun := false,
    tiredAlternative := "Take a complete rest day or do a 20-minute walk instead." }

def longTemplate : WorkoutTemplate :=
  { type := "long", title := "Long Run",
    description := "Your weekly long run. Start slow and maintain an easy, sustainable pace throughout. Focus on time on feet.",
    durationMultiplier := 3/2, intensity := "low",
    isKeyWorkout := true, isLongRun := true,
    tiredAlternative := "Reduce duration by 20-30% but still complete the run at an easy effort." }

def tempoTemplate : WorkoutTemplate :=
  { type := "tempo", title := "Tempo Run",
    description := "Warm up for 10 minutes, then run at a \"comfortably hard\" pace for the main portion. Cool down for 10 minutes.",
    durationMultiplier := 11/10, intensity := "moderate",
    isKeyWorkout := true, isLongRun := false,
    tiredAlternative := "Convert to an easy run at the same duration." }

def intervalTemplate : WorkoutTemplate :=
  { type := "interval", title := "Interval Training",
    description := "Warm up 10 minutes. Run hard efforts with recovery jogs between. Intensity should be challenging but controlled.",
    durationMultiplier := 9/10, intensity := "high",
    isKeyWorkout := true, isLongRun := false,
    tiredAlternative := "Reduce the number of intervals by half, or convert to a tempo run." }

/-- `getWorkoutTemplates` (trainingPlan.ts lines 55-111): easy and long
always; tempo unless beginner; interval for advanced, or for intermediate in
the peak phase. -/
def getWorkoutTemplates (experienceLevel : String) (weekPhase : String) :
    List WorkoutTemplate :=
  let isAdvanced := experienceLevel = "advanced"
  let isBeginner := experienceLevel = "beginner"
  [easyTemplate, longTemplate]
    ++ (if ¬ isBeginner then [tempoTemplate] else [])
    ++ (if isAdvanced ∨ (experienceLevel = "intermediate" ∧ weekPhase = "peak")
        then [intervalTemplate] else [])

/-- A row of the `workouts` table. Freshly inserted rows get `id := 0` here
(the claims never depend on generated row ids) and `completed := false`
(the schema default). -/
structure Workout where
  id : ℕ
  plan_id : ℕ
  user_id : ℕ
  date : ℤ
  week_number : ℕ
  workout_type : String
  title : String
  description : String
  duration_minutes : ℤ
  intensity : String
  tired_alternative : String
  is_key_workout : Bool
  is_long_run : Bool
  completed : Bool
deriving DecidableEq, Repr, Inhabited

/-- Date offset within a Monday-first week: `day === 0 ? 6 : day - 1`
(trainingPlan.ts lines 252, 268, 288, 346, 369, 387). -/
def dayOffset (day : ℕ) : ℤ := if day = 0 then 6 else (day : ℤ) - 1

/-- `dayNumbers.filter(d => d === 0 || d === 6)` (lines 214 and 326). -/
def weekendDaysOf (dayNumbers : List ℕ) : List ℕ :=
  dayNumbers.filter (fun d => d = 0 ∨ d = 6)

/-- Long-run day selection (lines 218-220 and 342-344): the maximum weekend
day when one is permitted, otherwise the maximum permitted day. -/
def longRunDayOf (dayNumbers : List ℕ) : ℕ :=
  if 0 < (weekendDaysOf dayNumbers).length then listMax (weekendDaysOf dayNumbers)
  else listMax dayNumbers

/-- Key-workout day candidates (lines 223-227): not the long-run day, not
calendar-adjacent to it (`|d - longRunDay| > 1`), and not wrap-around
adjacent (`|d - longRunDay| !== 6`). -/
def keyWorkoutCandidatesOf (dayNumbers : List ℕ) (longRunDay : ℕ) : List ℕ :=
  dayNumbers.filter (fun d => d ≠ longRunDay ∧
    1 < ((d : ℤ) - (longRunDay : ℤ)).natAbs ∧ ((d : ℤ) - (longRunDay : ℤ)).natAbs ≠ 6)

/-- Key-workout day (lines 228-230): the middle candidate if any candidate
exists, else the first permitted day different from the long-run day
(`undefined`, i.e. `none`, when no such day exists). -/
def keyWorkoutDayOf (dayNumbers : List ℕ) (longRunDay : ℕ) : Option ℕ :=
  let c := keyWorkoutCandidatesOf dayNumbers longRunDay
  if 0 < c.length then c.get? (c.length / 2)
  else dayNumbers.find? (fun d => d ≠ longRunDay)

/-- `dayNumbers.filter(d => d !== longRunDay && d !== keyWorkoutDay)` (line
240); when `keyWorkoutDay` is `undefined` the second test always passes. -/
def easyDaysOf (dayNumbers : List ℕ) (longRunDay : ℕ) (keyWorkoutDay : Option ℕ) :
    List ℕ :=
  dayNumbers.filter (fun d => d ≠ longRunDay ∧ some d ≠ keyWorkoutDay)

/-- The key-workout insert of `generateWeekWorkouts` (lines 260-276),
returning the inserted rows (zero or one) and the remaining volume after
the insert. The insert happens only when a key-workout day exists and the
athlete is not a beginner. -/
def genWeekKeyPart (templates : List WorkoutTemplate) (keyWorkoutDay : Option ℕ)
    (experienceLevel : String) (remainingVolume : ℚ)
    (maxWeekdayTime maxWeekendTime : ℤ) (planId userId weekNumber : ℕ)
    (weekStart : ℤ) : List Workout × ℚ :=
  match keyWorkoutDay with
  | some kd =>
    if experienceLevel ≠ "beginner" then
      let keyTemplate := (templates.find? (fun t => t.type = "tempo" ∨ t.type = "interval")).getD
        (templates.getD 0 easyTemplate)
      let keyWorkoutDuration := min (jsRound (remainingVolume * (3/10)))
        (if kd = 0 ∨ kd = 6 then maxWeekendTime else maxWeekdayTime)
      ([{ id := 0, plan_id := planId, user_id := userId,
          date := weekStart + dayOffset kd, week_number := weekNumber,
          workout_type := keyTemplate.type, title := keyTemplate.title,
          description := keyTemplate.description,
          duration_minutes := keyWorkoutDuration, intensity := keyTemplate.intensity,
          tired_alternative := keyTemplate.tiredAlternative,
          is_key_workout := true, is_long_run := false, completed := false }],
        remainingVolume - keyWorkoutDuration)
    else ([], remainingVolume)
  | none => ([], remainingVolume)

/-- The easy-run inserts of `generateWeekWorkouts` (lines 278-297): the
remaining volume split evenly over the easy days, each capped at its day
ceiling. -/
def genWeekEasyPart (templates : List WorkoutTemplate) (easyDays : List ℕ)
    (remainingVolume : ℚ) (maxWeekdayTime maxWeekendTime : ℤ)
    (planId userId weekNumber : ℕ) (weekStart : ℤ) : List Workout :=
  let tmpl := (templates.find? (fun t => t.type = "easy")).getD easyTemplate
  if 0 < easyDays.length then
    let easyRunDuration := jsRound (remainingVolume / (easyDays.length : ℚ))
    easyDays.map (fun day =>
      let maxTime := if day = 0 ∨ day = 6 then maxWeekendTime else maxWeekdayTime
      { id := 0, plan_id := planId, user_id := userId,
        date := weekStart + dayOffset day, week_number := weekNumber,
        workout_type := "easy", title := tmpl.title,
        description := tmpl.description,
        duration_minutes := min easyRunDuration maxTime, intensity := tmpl.intensity,
        tired_alternative := tmpl.tiredAlternative,
        is_key_workout := false, is_long_run := false, completed := false })
  else []

/-- The long-run insert of `generateWeekWorkouts` (lines 232-258). The
`find` of the long template always succeeds (`long` is in every template
list), so the `getD` default is never used. -/
def genWeekLongWorkout (planId userId weekNumber : ℕ) (weekStart : ℤ)
    (dayNumbers : List ℕ) (templates : List WorkoutTemplate) (weeklyVolume : ℚ)
    (maxWeekdayTime maxWeekendTime : ℤ) : Workout :=
  let longRunDay := longRunDayOf dayNumbers
  let longRunTemplate := (templates.find? (fun t => t.type = "long")).getD easyTemplate
  let longRunDuration := min (jsRound (weeklyVolume * (35/100)))
    (if longRunDay = 0 ∨ longRunDay = 6 then maxWeekendTime else maxWeekdayTime)
  { id := 0, plan_id := planId, user_id := userId,
    date := weekStart + dayOffset longRunDay, week_number := weekNumber,
    workout_type := "long", title := longRunTemplate.title,
    description := longRunTemplate.description,
    duration_minutes := longRunDuration, intensity := longRunTemplate.intensity,
    tired_alternative := longRunTemplate.tiredAlternative,
    is_key_workout := true, is_long_run := true, completed := false }

/-- `generateWeekWorkouts` (trainingPlan.ts lines 196-298), returning the
rows inserted for one week in insertion order: the long run, then the key
workout (when applicable), then the easy runs. -/
def generateWeekWorkouts (planId userId weekNumber : ℕ) (weekStart : ℤ)
    (availableDays : List String) (weeklyVolume : ℚ) (experienceLevel : String)
    (maxWeekdayTime maxWeekendTime : ℤ) (phase : String) : List Workout :=
  let templates := getWorkoutTemplates experienceLevel phase
  let dayNumbers := dayNumbersOf availableDays
  if dayNumbers.isEmpty then [] else
  let longRunDay := longRunDayOf dayNumbers
  let keyWorkoutDay := keyWorkoutDayOf dayNumbers longRunDay
  let longWorkout := genWeekLongWorkout planId userId weekNumber weekStart
    dayNumbers templates weeklyVolume maxWeekdayTime maxWeekendTime
  let remainingVolume := weeklyVolume - (longWorkout.duration_minutes : ℚ)
  let easyDays := easyDaysOf dayNumbers longRunDay keyWorkoutDay
  let keyPart := genWeekKeyPart templates keyWorkoutDay experienceLevel remainingVolume
    maxWeekdayTime maxWeekendTime planId userId weekNumber weekStart
  longWorkout :: (keyPart.1 ++ genWeekEasyPart templates easyDays keyPart.2
    maxWeekdayTime maxWeekendTime planId userId weekNumber weekStart)

/-- The goal fields consumed by the planning services. `race_date` is
represented by the `raceDate` parameter of `generateTrainingPlan`, and
`available_days` is the already-JSON-parsed list of day names. -/
structure Goal where
  id : ℕ
  user_id : ℕ
  race_distance : String
  experience_level : String
  current_frequency : ℚ
  longest_recent_run : ℚ
  available_days : List String
  max_weekday_time : ℤ
  max_weekend_time : ℤ
deriving DecidableEq, Repr

/-- The phase argument of the generation loop (trainingPlan.ts line 189):
`week <= totalWeeks * 0.6 ? build : week <= totalWeeks * 0.85 ? peak :
taper` (not floored here, unlike the volume curve). -/
def planPhase (week totalWeeks : ℕ) : String :=
  if (week : ℚ) ≤ (totalWeeks : ℚ) * (3/5) then "build"
  else if (week : ℚ) ≤ (totalWeeks : ℚ) * (17/20) then "peak"
  else "taper"

/-- The per-week loop of `generateTrainingPlan` (lines 172-191): week `i+1`
starts at `startOfWeek(today) + 7*i` and uses the volume-curve output for
that week. -/
def generatePlanWeeks (planId : ℕ) (goal : Goal) (today : ℤ) (totalWeeks : ℕ) :
    List (List Workout) :=
  (List.range totalWeeks).map (fun (i : ℕ) =>
    let week := i + 1
    let weekStart := startOfWeekMon today + 7 * (i : ℤ)
    let weeklyVolume := calculateWeeklyVolume week totalWeeks
      (raceConfigOf goal.race_distance) (experienceMultiplierOf goal.experience_level)
      goal.current_frequency goal.longest_recent_run
    generateWeekWorkouts planId goal.user_id week weekStart goal.available_days
      weeklyVolume goal.experience_level goal.max_weekday_time goal.max_weekend_time
      (planPhase week totalWeeks))

/-- `generateTrainingPlan` (lines 154-194): `totalWeeks = max(1,
differenceInWeeks(raceDate, today))` where `differenceInWeeks` truncates
toward zero, then one batch of inserts per week. The function returns the
inserted workouts grouped by week. -/
def generateTrainingPlan (planId : ℕ) (goal : Goal) (today raceDate : ℤ) :
    List (List Workout) :=
  let totalWeeks := (max 1 ((raceDate - today).tdiv 7)).toNat
  generatePlanWeeks planId goal today totalWeeks

lemma foldl_max_init_le : ∀ (l : List ℕ) (a : ℕ), a ≤ l.foldl max a := by
  intro l
  induction l with
  | nil => intro a; exact le_refl a
  | cons h t ih =>
    intro a
    exact le_trans (le_max_left a h) (ih (max a h))

lemma foldl_max_le_of_mem : ∀ (l : List ℕ) (a x : ℕ), x ∈ l → x ≤ l.foldl max a := by
  intro l
  induction l with
  | nil => intro a x hx; cases hx
  | cons h t ih =>
    intro a x hx
    rcases List.mem_cons.mp hx with rfl | hx
    · exact le_trans (le_max_right a x) (foldl_max_init_le t (max a x))
    · exact ih (max a h) x hx

lemma foldl_max_mem : ∀ (l : List ℕ) (a : ℕ), l.foldl max a = a ∨ l.foldl max a ∈ l := by
  intro l
  induction l with
  | nil => intro a; exact Or.inl rfl
  | cons h t ih =>
    intro a
    rcases ih (max a h) with heq | hmem
    · rcases max_choice a h with hc | hc
      · exact Or.inl (by simpa [hc] using heq)
      · exact Or.inr (by simp only [List.foldl_cons]; rw [heq, hc]; exact List.mem_cons_self _ _)
    · exact Or.inr (List.mem_cons_of_mem _ hmem)

lemma listMax_mem {l : List ℕ} (h : l ≠ []) : listMax l ∈ l := by
  unfold listMax
  rcases foldl_max_mem l 0 with heq | hmem
  · cases l with
    | nil => exact absurd rfl h
    | cons x t =>
      rw [heq]
      have hx : x ≤ List.foldl max 0 (x :: t) := foldl_max_le_of_mem _ 0 x (List.mem_cons_self _ _)
      rw [heq] at hx
      have : x = 0 := Nat.le_zero.mp hx
      simpa [this] using List.mem_cons_self x t
  · exact hmem

lemma le_listMax {l : List ℕ} {x : ℕ} (hx : x ∈ l) : x ≤ listMax l :=
  foldl_max_le_of_mem l 0 x hx

lemma mem_weekendDaysOf {dn : List ℕ} {d : ℕ} :
    d ∈ weekendDaysOf dn ↔ d ∈ dn ∧ (d = 0 ∨ d = 6) := by
  simp [weekendDaysOf]

lemma longRunDayOf_mem {dn : List ℕ} (h : dn ≠ []) : longRunDayOf dn ∈ dn := by
  unfold longRunDayOf
  split
  · next hlen =>
    have hne : weekendDaysOf dn ≠ [] := by
      intro hnil; rw [hnil] at hlen; simp at hlen
    exact (mem_weekendDaysOf.mp (listMax_mem hne)).1
  · exact listMax_mem h

lemma longRunDayOf_weekend {dn : List ℕ} (h : weekendDaysOf dn ≠ []) :
    longRunDayOf dn ∈ weekendDaysOf dn ∧ ∀ d ∈ weekendDaysOf dn, d ≤ longRunDayOf dn := by
  unfold longRunDayOf
  rw [if_pos (List.length_pos.mpr h)]
  exact ⟨listMax_mem h, fun d hd => le_listMax hd⟩

lemma longRunDayOf_no_weekend {dn : List ℕ} (h : weekendDaysOf dn = []) :
    ∀ d ∈ dn, d ≤ longRunDayOf dn := by
  unfold longRunDayOf
  rw [if_neg (by simp [h])]
  exact fun d hd => le_listMax hd

lemma genWeekKeyPart_not_long (t : List WorkoutTemplate) (kwd : Option ℕ)
    (exp : String) (rv : ℚ) (mwd mwe : ℤ) (p u wn : ℕ) (ws : ℤ) :
    ∀ w ∈ (genWeekKeyPart t kwd exp rv mwd mwe p u wn ws).1, w.is_long_run = false := by
  cases kwd with
  | none => simp [genWeekKeyPart]
  | some kd =>
    by_cases hexp : exp ≠ "beginner"
    · simp only [genWeekKeyPart, if_pos hexp]
      intro w hw
      simp only [List.mem_singleton] at hw
      subst hw
      rfl
    · simp [genWeekKeyPart, hexp]

lemma genWeekKeyPart_beginner (t : List WorkoutTemplate) (kwd : Option ℕ)
    (rv : ℚ) (mwd mwe : ℤ) (p u wn : ℕ) (ws : ℤ) :
    genWeekKeyPart t kwd "beginner" rv mwd mwe p u wn ws = ([], rv) := by
  cases kwd with
  | none => rfl
  | some kd => simp [genWeekKeyPart]

lemma genWeekEasyPart_not_long (t : List WorkoutTemplate) (ed : List ℕ) (rv : ℚ)
    (mwd mwe : ℤ) (p u wn : ℕ) (ws : ℤ) :
    ∀ w ∈ genWeekEasyPart t ed rv mwd mwe p u wn ws, w.is_long_run = false := by
  unfold genWeekEasyPart
  split
  · intro w hw
    simp only [List.mem_map] at hw
    obtain ⟨d, _, rfl⟩ := hw
    rfl
  · simp

lemma genWeekEasyPart_type (t : List WorkoutTemplate) (ed : List ℕ) (rv : ℚ)
    (mwd mwe : ℤ) (p u wn : ℕ) (ws : ℤ) :
    ∀ w ∈ genWeekEasyPart t ed rv mwd mwe p u wn ws, w.workout_type = "easy" := by
  unfold genWeekEasyPart
  split
  · intro w hw
    simp only [List.mem_map] at hw
    obtain ⟨d, _, rfl⟩ := hw
    rfl
  · simp

/-- Structure of a generated week with at least one recognized permitted
day: the output is the long-run row followed by the key and easy rows. -/
lemma generateWeekWorkouts_eq (p u wn : ℕ) (ws : ℤ) (days : List String)
    (vol : ℚ) (exp : String) (mwd mwe : ℤ) (ph : String)
    (h : dayNumbersOf days ≠ []) :
    generateWeekWorkouts p u wn ws days vol exp mwd mwe ph =
      genWeekLongWorkout p u wn ws (dayNumbersOf days) (getWorkoutTemplates exp ph)
          vol mwd mwe ::
        ((genWeekKeyPart (getWorkoutTemplates exp ph)
            (keyWorkoutDayOf (dayNumbersOf days) (longRunDayOf (dayNumbersOf days)))
            exp
            (vol - ((genWeekLongWorkout p u wn ws (dayNumbersOf days)
              (getWorkoutTemplates exp ph) vol mwd mwe).duration_minutes : ℚ))
            mwd mwe p u wn ws).1 ++
          genWeekEasyPart (getWorkoutTemplates exp ph)
            (easyDaysOf (dayNumbersOf days) (longRunDayOf (dayNumbersOf days))
              (keyWorkoutDayOf (dayNumbersOf days) (longRunDayOf (dayNumbersOf days))))
            (genWeekKeyPart (getWorkoutTemplates exp ph)
              (keyWorkoutDayOf (dayNumbersOf days) (longRunDayOf (dayNumbersOf days)))
              exp
              (vol - ((genWeekLongWorkout p u wn ws (dayNumbersOf days)
                (getWorkoutTemplates exp ph) vol mwd mwe).duration_minutes : ℚ))
              mwd mwe p u wn ws).2
            mwd mwe p u wn ws) := by
  unfold generateWeekWorkouts
  rw [if_neg (by simp [List.isEmpty_iff, h])]

lemma genWeekLongWorkout_is_long (p u wn : ℕ) (ws : ℤ) (dn : List ℕ)
    (t : List WorkoutTemplate) (vol : ℚ) (mwd mwe : ℤ) :
    (genWeekLongWorkout p u wn ws dn t vol mwd mwe).is_long_run = true := rfl

lemma genWeekLongWorkout_date (p u wn : ℕ) (ws : ℤ) (dn : List ℕ)
    (t : List WorkoutTemplate) (vol : ℚ) (mwd mwe : ℤ) :
    (genWeekLongWorkout p u wn ws dn t vol mwd mwe).date =
      ws + dayOffset (longRunDayOf dn) := rfl

lemma genWeekLongWorkout_duration (p u wn : ℕ) (ws : ℤ) (dn : List ℕ)
    (t : List WorkoutTemplate) (vol : ℚ) (mwd mwe : ℤ) :
    (genWeekLongWorkout p u wn ws dn t vol mwd mwe).duration_minutes =
      min (jsRound (vol * (35/100)))
        (if longRunDayOf dn = 0 ∨ longRunDayOf dn = 6 then mwe else mwd) := rfl

lemma genWeekLongWorkout_type (p u wn : ℕ) (ws : ℤ) (dn : List ℕ)
    (t : List WorkoutTemplate) (vol : ℚ) (mwd mwe : ℤ) :
    (genWeekLongWorkout p u wn ws dn t vol mwd mwe).workout_type = "long" := rfl

lemma filter_long_one {lw : Workout} {k e : List Workout}
    (hlw : lw.is_long_run = true)
    (hk : ∀ w ∈ k, w.is_long_run = false) (he : ∀ w ∈ e, w.is_long_run = false) :
    ((lw :: (k ++ e)).filter (fun w => w.is_long_run)).length = 1 ∧
    ∀ w ∈ lw :: (k ++ e), w.is_long_run = true → w = lw := by
  have hknil : k.filter (fun w => w.is_long_run) = [] :=
    List.filter_eq_nil_iff.mpr (fun w hw => by simp [hk w hw])
  have henil : e.filter (fun w => w.is_long_run) = [] :=
    List.filter_eq_nil_iff.mpr (fun w hw => by simp [he w hw])
  constructor
  · rw [List.filter_cons, List.filter_append, hknil, henil]
    simp [hlw]
  · intro w hw hl
    rcases List.mem_cons.mp hw with rfl | hw
    · rfl
    · rcases List.mem_append.mp hw with hw | hw
      · rw [hk w hw] at hl; cases hl
      · rw [he w hw] at hl; cases hl

/-- A generated week with at least one recognized permitted day has exactly
one long-run-flagged workout, namely the long-run row. -/
lemma generateWeekWorkouts_long_spec (p u wn : ℕ) (ws : ℤ) (days : List String)
    (vol : ℚ) (exp : String) (mwd mwe : ℤ) (ph : String)
    (h : dayNumbersOf days ≠ []) :
    ((generateWeekWorkouts p u wn ws days vol exp mwd mwe ph).filter
        (fun w => w.is_long_run)).length = 1 ∧
    ∀ w ∈ generateWeekWorkouts p u wn ws days vol exp mwd mwe ph,
      w.is_long_run = true →
        w = genWeekLongWorkout p u wn ws (dayNumbersOf days)
          (getWorkoutTemplates exp ph) vol mwd mwe := by
  rw [generateWeekWorkouts_eq p u wn ws days vol exp mwd mwe ph h]
  exact filter_long_one rfl
    (genWeekKeyPart_not_long _ _ _ _ _ _ _ _ _ _)
    (genWeekEasyPart_not_long _ _ _ _ _ _ _ _ _)

lemma generateWeekWorkouts_nil (p u wn : ℕ) (ws : ℤ) (days : List String)
    (vol : ℚ) (exp : String) (mwd mwe : ℤ) (ph : String)
    (h : dayNumbersOf days = []) :
    generateWeekWorkouts p u wn ws days vol exp mwd mwe ph = [] := by
  unfold generateWeekWorkouts
  rw [if_pos (by simp [List.isEmpty_iff, h])]

lemma genWeekEasyPart_nil (t : List WorkoutTemplate) (rv : ℚ)
    (mwd mwe : ℤ) (p u wn : ℕ) (ws : ℤ) :
    genWeekEasyPart t [] rv mwd mwe p u wn ws = [] := rfl

/-- Week `i` (0-based) of a generated plan is the corresponding call of
`generateWeekWorkouts` with the week-`i+1` volume and phase. -/
lemma generatePlanWeeks_get (planId : ℕ) (goal : Goal) (today : ℤ)
    (totalWeeks i : ℕ) (wk : List Workout)
    (hwk : (generatePlanWeeks planId goal today totalWeeks).get? i = some wk) :
    wk = generateWeekWorkouts planId goal.user_id (i + 1)
      (startOfWeekMon today + 7 * (i : ℤ)) goal.available_days
      (calculateWeeklyVolume (i + 1) totalWeeks (raceConfigOf goal.race_distance)
        (experienceMultiplierOf goal.experience_level) goal.current_frequency
        goal.longest_recent_run)
      goal.experience_level goal.max_weekday_time goal.max_weekend_time
      (planPhase (i + 1) totalWeeks) := by
  unfold generatePlanWeeks at hwk
  rw [List.get?_map] at hwk
  cases hrange : (List.range totalWeeks).get? i with
  | none => rw [hrange] at hwk; cases hwk
  | some j =>
    rw [hrange] at hwk
    have hj : j = i := by
      have hmem := List.get?_eq_some.mp hrange
      obtain ⟨hlt, hget⟩ := hmem
      rw [← hget, List.get_range]
    subst hj
    simpa using hwk.symm

/-- C2: every generated week (for a goal with at least one recognized
permitted day) contains exactly one long-run-flagged workout; it is placed
on the maximum-numbered permitted weekend day when a weekend day is
permitted (Saturday 6 over Sunday 0), otherwise on the highest-numbered
permitted day; and its duration is `min(round(weeklyVolume * 0.35),
ceiling)` with the weekend ceiling exactly when it falls on Saturday or
Sunday. -/
theorem c2_single_long_run_per_week
    (planId : ℕ) (goal : Goal) (today : ℤ) (totalWeeks i : ℕ) (wk : List Workout)
    (hwk : (generatePlanWeeks planId goal today totalWeeks).get? i = some wk)
    (hdays : dayNumbersOf goal.available_days ≠ []) :
    ((wk.filter (fun w => w.is_long_run)).length = 1) ∧
    ∀ w ∈ wk, w.is_long_run = true →
      ∃ D : ℕ,
        D ∈ dayNumbersOf goal.available_days ∧
        w.date = startOfWeekMon today + 7 * (i : ℤ) + dayOffset D ∧
        (weekendDaysOf (dayNumbersOf goal.available_days) ≠ [] →
          (D = 0 ∨ D = 6) ∧
          ∀ d ∈ weekendDaysOf (dayNumbersOf goal.available_days), d ≤ D) ∧
        (weekendDaysOf (dayNumbersOf goal.available_days) = [] →
          ∀ d ∈ dayNumbersOf goal.available_days, d ≤ D) ∧
        w.duration_minutes = min
          (jsRound (calculateWeeklyVolume (i + 1) totalWeeks
            (raceConfigOf goal.race_distance)
            (experienceMultiplierOf goal.experience_level)
            goal.current_frequency goal.longest_recent_run * (35/100)))
          (if D = 0 ∨ D = 6 then goal.max_weekend_time else goal.max_weekday_time) := by
  have hwk' := generatePlanWeeks_get planId goal today totalWeeks i wk hwk
  subst hwk'
  obtain ⟨hcount, huniq⟩ := generateWeekWorkouts_long_spec planId goal.user_id (i + 1)
    (startOfWeekMon today + 7 * (i : ℤ)) goal.available_days
    (calculateWeeklyVolume (i + 1) totalWeeks (raceConfigOf goal.race_distance)
      (experienceMultiplierOf goal.experience_level) goal.current_frequency
      goal.longest_recent_run)
    goal.experience_level goal.max_weekday_time goal.max_weekend_time
    (planPhase (i + 1) totalWeeks) hdays
  refine ⟨hcount, ?_⟩
  intro w hw hlong
  have hweq := huniq w hw hlong
  refine ⟨longRunDayOf (dayNumbersOf goal.available_days), ?_, ?_, ?_, ?_, ?_⟩
  · exact longRunDayOf_mem hdays
  · rw [hweq]; exact genWeekLongWorkout_date _ _ _ _ _ _ _ _ _
  · intro hweekend
    obtain ⟨hmem, hbound⟩ := longRunDayOf_weekend hweekend
    exact ⟨(mem_weekendDaysOf.mp hmem).2, hbound⟩
  · intro hweekend
    exact longRunDayOf_no_weekend hweekend
  · rw [hweq]; exact genWeekLongWorkout_duration _ _ _ _ _ _ _ _ _

def c2Goal : Goal :=
  ⟨1, 1, "10k", "intermediate", 3, 45, ["tuesday", "thursday", "saturday", "sunday"], 60, 90⟩

/-- Witness for C2: week 1 of a concrete 10-week 10k plan. -/
theorem c2_single_long_run_per_week_witness :
    (generatePlanWeeks 1 c2Goal 0 10).get? 0 =
      some (generateWeekWorkouts 1 1 1 0 c2Goal.available_days
        (calculateWeeklyVolume 1 10 raceConfig10k 1 3 45) "intermediate" 60 90 "build") ∧
    dayNumbersOf c2Goal.available_days ≠ [] ∧
    (((generateWeekWorkouts 1 1 1 0 c2Goal.available_days
        (calculateWeeklyVolume 1 10 raceConfig10k 1 3 45) "intermediate" 60 90
        "build").filter (fun w => w.is_long_run)).length = 1) :=
  ⟨by decide, by decide,
    (c2_single_long_run_per_week 1 c2Goal 0 10 0
      (generateWeekWorkouts 1 1 1 0 c2Goal.available_days
        (calculateWeeklyVolume 1 10 raceConfig10k 1 3 45) "intermediate" 60 90 "build")
      (by decide) (by decide)).1⟩


lemma genWeek_monwed_beginner (p u wn : ℕ) (ws : ℤ) (vol : ℚ) (mwd mwe : ℤ)
    (ph : String) :
    generateWeekWorkouts p u wn ws ["monday", "wednesday"] vol "beginner" mwd mwe ph =
      [genWeekLongWorkout p u wn ws [1, 3] (getWorkoutTemplates "beginner" ph)
        vol mwd mwe] := by
  have hne : dayNumbersOf ["monday", "wednesday"] ≠ [] := by decide
  rw [generateWeekWorkouts_eq _ _ _ _ _ _ _ _ _ _ hne]
  rw [show dayNumbersOf ["monday", "wednesday"] = [1, 3] from by decide]
  rw [show longRunDayOf [1, 3] = 3 from by decide]
  rw [show keyWorkoutDayOf [1, 3] 3 = some 1 from by decide]
  rw [genWeekKeyPart_beginner]
  rw [show easyDaysOf [1, 3] 3 (some 1) = [] from by decide]
  rfl

def c3Goal : Goal := ⟨1, 1, "5k", "beginner", 3, 30, ["monday", "wednesday"], 60, 90⟩

/-- C3 counterexample: for the concrete 5k beginner goal with permitted
days Monday and Wednesday, it is NOT the case that every generated week has
exactly 2 workouts — the generator reserves Monday as the key-workout day,
inserts no key workout for a beginner, and leaves no easy day, so each week
has exactly one workout. -/
theorem c3_counterexample_two_workouts :
    ¬ ∀ wk ∈ generatePlanWeeks 1 c3Goal 0 8, wk.length = 2 := by
  intro hall
  have hmem : generateWeekWorkouts 1 1 1 0 ["monday", "wednesday"]
      (calculateWeeklyVolume 1 8 raceConfig5k (7/10) 3 30) "beginner" 60 90 "build"
      ∈ generatePlanWeeks 1 c3Goal 0 8 := by decide
  have := hall _ hmem
  rw [genWeek_monwed_beginner] at this
  cases this

/-- C3 (amended): a 5k beginner plan over permitted days Monday and
Wednesday has exactly ONE workout per generated week (not two), of type
long — the generator reserves a key-workout day that beginners never fill
and so never assigns an easy run; and, as claimed, no workout generated for
a beginner goal ever has type tempo or interval. -/
theorem c3_beginner_5k_monwed_weeks (cf lrr : ℚ) (mwd mwe : ℤ)
    (gid uid planId : ℕ) (today : ℤ) (totalWeeks : ℕ) :
    (∀ wk ∈ generatePlanWeeks planId
        ⟨gid, uid, "5k", "beginner", cf, lrr, ["monday", "wednesday"], mwd, mwe⟩
        today totalWeeks,
      wk.length = 1 ∧ ∀ w ∈ wk, w.workout_type = "long") ∧
    (∀ (p u wn : ℕ) (ws : ℤ) (days : List String) (vol : ℚ) (mwd2 mwe2 : ℤ)
        (ph : String),
      ∀ w ∈ generateWeekWorkouts p u wn ws days vol "beginner" mwd2 mwe2 ph,
        w.workout_type ≠ "tempo" ∧ w.workout_type ≠ "interval") := by
  constructor
  · intro wk hwk
    obtain ⟨i, hget⟩ := List.mem_iff_get?.mp hwk
    have hwk' := generatePlanWeeks_get _ _ _ _ _ _ hget
    rw [genWeek_monwed_beginner] at hwk'
    subst hwk'
    refine ⟨rfl, ?_⟩
    intro w hw
    rcases List.mem_singleton.mp hw with rfl
    rfl
  · intro p u wn ws days vol mwd2 mwe2 ph w hw
    by_cases hdn : dayNumbersOf days = []
    · rw [generateWeekWorkouts_nil _ _ _ _ _ _ _ _ _ _ hdn] at hw
      cases hw
    · rw [generateWeekWorkouts_eq _ _ _ _ _ _ _ _ _ _ hdn] at hw
      rw [genWeekKeyPart_beginner] at hw
      rcases List.mem_cons.mp hw with rfl | hw
      · rw [genWeekLongWorkout_type]
        exact ⟨by decide, by decide⟩
      · rw [List.nil_append] at hw
        rw [genWeekEasyPart_type _ _ _ _ _ _ _ _ _ w hw]
        exact ⟨by decide, by decide⟩

/-- Witness for the amended C3 at a concrete input: week 1 of the concrete
plan is a member and has exactly one workout. -/
theorem c3_beginner_5k_monwed_weeks_witness :
    generateWeekWorkouts 1 1 1 0 ["monday", "wednesday"]
        (calculateWeeklyVolume 1 8 raceConfig5k (7/10) 3 30) "beginner" 60 90 "build"
      ∈ generatePlanWeeks 1 c3Goal 0 8 ∧
    (generateWeekWorkouts 1 1 1 0 ["monday", "wednesday"]
        (calculateWeeklyVolume 1 8 raceConfig5k (7/10) 3 30) "beginner" 60 90
        "build").length = 1 :=
  ⟨by decide,
    ((c3_beginner_5k_monwed_weeks 3 30 60 90 1 1 1 0 8).1 _ (by decide)).1⟩


/-- `workouts.find(w => w.is_long_run === 1)` (trainingPlan.ts line 309). -/
def rescheduleLongRun (weekWorkouts : List Workout) : Option Workout :=
  weekWorkouts.find? (fun w => w.is_long_run)

/-- `workouts.find(w => w.is_key_workout === 1 && w.is_long_run === 0)`
(line 310). -/
def rescheduleKeyWorkout (weekWorkouts : List Workout) : Option Workout :=
  weekWorkouts.find? (fun w => w.is_key_workout ∧ ¬ w.is_long_run)

/-- `workouts.filter(w => w.is_key_workout === 0 && w.is_long_run === 0)`
(line 311). -/
def rescheduleEasyRuns (weekWorkouts : List Workout) : List Workout :=
  weekWorkouts.filter (fun w => ¬ w.is_key_workout ∧ ¬ w.is_long_run)

/-- `usedDays` after the long-run placement (lines 338-354): the long-run
day when a long run exists, empty otherwise. -/
def rescheduleUsedDays1 (longRun : Option Workout) (dayNumbers : List ℕ) : List ℕ :=
  match longRun with
  | none => []
  | some _ => [longRunDayOf dayNumbers]

/-- The long-run re-insert of `rescheduleWeek` (lines 340-354): the original
long-run row's content with a new date, weekend-preferring placement. -/
def rescheduleLongPart (longRun : Option Workout) (dayNumbers : List ℕ)
    (weekStart : ℤ) (planId userId weekNumber : ℕ) : List Workout :=
  match longRun with
  | none => []
  | some lr =>
    let longRunDay := longRunDayOf dayNumbers
    [{ id := 0, plan_id := planId, user_id := userId,
       date := weekStart + dayOffset longRunDay, week_number := weekNumber,
       workout_type := lr.workout_type, title := lr.title,
       description := lr.description, duration_minutes := lr.duration_minutes,
       intensity := lr.intensity, tired_alternative := lr.tired_alternative,
       is_key_workout := true, is_long_run := true, completed := false }]

/-- Key-workout day selection in `rescheduleWeek` (lines 358-366). When
`usedDays` is empty the JavaScript adjacency test compares against
`undefined` and is always false, so `nonAdjacentDays` is empty and the
first available day is used. -/
def rescheduleKeyDay (dayNumbers usedDays : List ℕ) : Option ℕ :=
  let availableForKey := dayNumbers.filter (fun d => ¬ usedDays.contains d)
  let nonAdjacentDays := availableForKey.filter (fun (d : ℕ) =>
    match usedDays.head? with
    | some longDay =>
      decide (1 < ((d : ℤ) - (longDay : ℤ)).natAbs ∧
        ((d : ℤ) - (longDay : ℤ)).natAbs ≠ 6)
    | none => false)
  if 0 < nonAdjacentDays.length then nonAdjacentDays.get? (nonAdjacentDays.length / 2)
  else availableForKey.head?

/-- `usedDays` after the key-workout placement (lines 356-378). -/
def rescheduleUsedDays2 (keyWorkout : Option Workout) (dayNumbers usedDays : List ℕ) :
    List ℕ :=
  match keyWorkout with
  | none => usedDays
  | some _ =>
    if 1 < dayNumbers.length then
      match rescheduleKeyDay dayNumbers usedDays with
      | some keyDay => usedDays ++ [keyDay]
      | none => usedDays
    else usedDays

/-- The key-workout re-insert of `rescheduleWeek` (lines 356-378): only when
a key workout existed, more than one day is available and a key day was
found. -/
def rescheduleKeyPart (keyWorkout : Option Workout) (dayNumbers usedDays : List ℕ)
    (weekStart : ℤ) (planId userId weekNumber : ℕ) : List Workout :=
  match keyWorkout with
  | none => []
  | some kw =>
    if 1 < dayNumbers.length then
      match rescheduleKeyDay dayNumbers usedDays with
      | some keyDay =>
        [{ id := 0, plan_id := planId, user_id := userId,
           date := weekStart + dayOffset keyDay, week_number := weekNumber,
           workout_type := kw.workout_type, title := kw.title,
           description := kw.description, duration_minutes := kw.duration_minutes,
           intensity := kw.intensity, tired_alternative := kw.tired_alternative,
           is_key_workout := true, is_long_run := false, completed := false }]
      | none => []
    else []

/-- `dayNumbers.filter(d => !usedDays.includes(d))` after both placements
(line 381). -/
def rescheduleRemainingDays (weekWorkouts : List Workout) (dayNumbers : List ℕ) :
    List ℕ :=
  dayNumbers.filter (fun d =>
    ¬ (rescheduleUsedDays2 (rescheduleKeyWorkout weekWorkouts) dayNumbers
        (rescheduleUsedDays1 (rescheduleLongRun weekWorkouts) dayNumbers)).contains d)

/-- The re-creation phase of `rescheduleWeek` (trainingPlan.ts lines
308-395): the rows inserted for the week, in insertion order — long run,
key workout, then one easy row per remaining day zipped with the original
easy rows in list order (the `for` loop of lines 384-395 runs for
`min(easyRuns.length, remainingDays.length)` iterations). -/
def rescheduleWeekNew (weekWorkouts : List Workout) (planId userId weekNumber : ℕ)
    (weekStart : ℤ) (newAvailableDays : List String) : List Workout :=
  let dayNumbers := dayNumbersOf newAvailableDays
  if dayNumbers.isEmpty then [] else
  let used1 := rescheduleUsedDays1 (rescheduleLongRun weekWorkouts) dayNumbers
  rescheduleLongPart (rescheduleLongRun weekWorkouts) dayNumbers weekStart
      planId userId weekNumber ++
    rescheduleKeyPart (rescheduleKeyWorkout weekWorkouts) dayNumbers used1
      weekStart planId userId weekNumber ++
    ((rescheduleRemainingDays weekWorkouts dayNumbers).zip
        (rescheduleEasyRuns weekWorkouts)).map (fun pr =>
      { id := 0, plan_id := planId, user_id := userId,
        date := weekStart + dayOffset pr.1, week_number := weekNumber,
        workout_type := pr.2.workout_type, title := pr.2.title,
        description := pr.2.description, duration_minutes := pr.2.duration_minutes,
        intensity := pr.2.intensity, tired_alternative := pr.2.tired_alternative,
        is_key_workout := false, is_long_run := false, completed := false })

/-- `rescheduleWeek` (trainingPlan.ts lines 300-396) over the whole
`workouts` table: a no-op when the week has no workouts; otherwise the
week's rows are deleted and the re-created rows inserted. The week start is
recomputed from the first existing row's date. -/
def rescheduleWeek (allWorkouts : List Workout) (planId userId weekNumber : ℕ)
    (newAvailableDays : List String) : List Workout :=
  let workouts := allWorkouts.filter (fun w =>
    w.plan_id = planId ∧ w.user_id = userId ∧ w.week_number = weekNumber)
  match workouts with
  | [] => allWorkouts
  | w0 :: _ =>
    let weekStart := startOfWeekMon w0.date
    let others := allWorkouts.filter (fun w =>
      ¬ (w.plan_id = planId ∧ w.user_id = userId ∧ w.week_number = weekNumber))
    others ++ rescheduleWeekNew workouts planId userId weekNumber weekStart
      newAvailableDays


lemma rescheduleLongPart_long (lr : Option Workout) (dn : List ℕ) (ws : ℤ)
    (p u wn : ℕ) :
    ∀ w ∈ rescheduleLongPart lr dn ws p u wn, w.is_long_run = true := by
  cases lr with
  | none => simp [rescheduleLongPart]
  | some l =>
    intro w hw
    rcases List.mem_singleton.mp hw with rfl
    rfl

lemma rescheduleKeyPart_key (kw : Option Workout) (dn used : List ℕ) (ws : ℤ)
    (p u wn : ℕ) :
    ∀ w ∈ rescheduleKeyPart kw dn used ws p u wn,
      w.is_key_workout = true ∧ w.is_long_run = false := by
  cases kw with
  | none => simp [rescheduleKeyPart]
  | some k =>
    intro w hw
    simp only [rescheduleKeyPart] at hw
    by_cases hlen : 1 < dn.length
    · rw [if_pos hlen] at hw
      cases hkd : rescheduleKeyDay dn used with
      | none => rw [hkd] at hw; cases hw
      | some kd =>
        rw [hkd] at hw
        rcases List.mem_singleton.mp hw with rfl
        exact ⟨rfl, rfl⟩
    · rw [if_neg hlen] at hw
      cases hw

/-- Content preservation of the re-created rows: every field listed in the
claim is copied from one of the original week rows. -/
lemma rescheduleWeekNew_content (weekWorkouts : List Workout) (p u wn : ℕ)
    (ws : ℤ) (days : List String) :
    ∀ w' ∈ rescheduleWeekNew weekWorkouts p u wn ws days,
      ∃ w ∈ weekWorkouts,
        w'.workout_type = w.workout_type ∧ w'.title = w.title ∧
        w'.description = w.description ∧
        w'.duration_minutes = w.duration_minutes ∧
        w'.intensity = w.intensity ∧ w'.tired_alternative = w.tired_alternative := by
  intro w' hw'
  unfold rescheduleWeekNew at hw'
  by_cases hdn : (dayNumbersOf days).isEmpty
  · rw [if_pos hdn] at hw'
    cases hw'
  · rw [if_neg hdn] at hw'
    rcases List.mem_append.mp hw' with hab | hc
    · rcases List.mem_append.mp hab with ha | hb
      · cases hlr : rescheduleLongRun weekWorkouts with
        | none => rw [hlr] at ha; cases ha
        | some lr =>
          rw [hlr] at ha
          rcases List.mem_singleton.mp ha with rfl
          exact ⟨lr, List.mem_of_find?_eq_some hlr, rfl, rfl, rfl, rfl, rfl, rfl⟩
      · cases hkw : rescheduleKeyWorkout weekWorkouts with
        | none => rw [hkw] at hb; cases hb
        | some kw =>
          rw [hkw] at hb
          simp only [rescheduleKeyPart] at hb
          by_cases hlen : 1 < (dayNumbersOf days).length
          · rw [if_pos hlen] at hb
            cases hkd : rescheduleKeyDay (dayNumbersOf days)
                (rescheduleUsedDays1 (rescheduleLongRun weekWorkouts)
                  (dayNumbersOf days)) with
            | none => rw [hkd] at hb; cases hb
            | some kd =>
              rw [hkd] at hb
              rcases List.mem_singleton.mp hb with rfl
              exact ⟨kw, List.mem_of_find?_eq_some hkw, rfl, rfl, rfl, rfl, rfl, rfl⟩
          · rw [if_neg hlen] at hb
            cases hb
    · obtain ⟨pr, hpr, rfl⟩ := List.mem_map.mp hc
      obtain ⟨d, e⟩ := pr
      have hmem := List.mem_zip hpr
      refine ⟨e, ?_, rfl, rfl, rfl, rfl, rfl, rfl⟩
      exact List.mem_of_mem_filter hmem.2

/-- C4: after `rescheduleWeek`, every row of the resulting table — both the
untouched rows and the re-created ones — has workout type, title,
description, duration, intensity and tired-alternative equal to those of a
row of the original table; only dates are recomputed. -/
theorem c4_reschedule_preserves_content (allWorkouts : List Workout)
    (planId userId weekNumber : ℕ) (newDays : List String) :
    ∀ w' ∈ rescheduleWeek allWorkouts planId userId weekNumber newDays,
      ∃ w ∈ allWorkouts,
        w'.workout_type = w.workout_type ∧ w'.title = w.title ∧
        w'.description = w.description ∧
        w'.duration_minutes = w.duration_minutes ∧
        w'.intensity = w.intensity ∧ w'.tired_alternative = w.tired_alternative := by
  intro w' hw'
  unfold rescheduleWeek at hw'
  cases hflt : allWorkouts.filter (fun w =>
      w.plan_id = planId ∧ w.user_id = userId ∧ w.week_number = weekNumber) with
  | nil =>
    rw [hflt] at hw'
    exact ⟨w', hw', rfl, rfl, rfl, rfl, rfl, rfl⟩
  | cons w0 rest =>
    rw [hflt] at hw'
    rcases List.mem_append.mp hw' with hother | hnew
    · exact ⟨w', List.mem_of_mem_filter hother, rfl, rfl, rfl, rfl, rfl, rfl⟩
    · obtain ⟨w, hwmem, hfields⟩ := rescheduleWeekNew_content (w0 :: rest)
        planId userId weekNumber (startOfWeekMon w0.date) newDays w' hnew
      refine ⟨w, ?_, hfields⟩
      rw [← hflt] at hwmem
      exact List.mem_of_mem_filter hwmem

def c4WeekExample : List Workout :=
  [⟨3, 1, 1, 0, 1, "easy", "Easy Run", "d", 30, "low", "t", false, false, false⟩,
   ⟨2, 1, 1, 1, 1, "tempo", "Tempo Run", "d", 35, "moderate", "t", true, false, false⟩,
   ⟨4, 1, 1, 3, 1, "easy", "Easy Run", "d", 30, "low", "t", false, false, false⟩,
   ⟨1, 1, 1, 5, 1, "long", "Long Run", "d", 60, "low", "t", true, true, false⟩]

/-- Witness for C4 at a concrete input: the rescheduled long run keeps the
content of an original row. -/
theorem c4_reschedule_preserves_content_witness :
    (rescheduleWeek c4WeekExample 1 1 1 ["sunday", "wednesday"]).headI ∈
        rescheduleWeek c4WeekExample 1 1 1 ["sunday", "wednesday"] ∧
    ∃ w ∈ c4WeekExample,
      ((rescheduleWeek c4WeekExample 1 1 1
          ["sunday", "wednesday"]).headI).workout_type = w.workout_type ∧
      ((rescheduleWeek c4WeekExample 1 1 1 ["sunday", "wednesday"]).headI).title = w.title ∧
      ((rescheduleWeek c4WeekExample 1 1 1 ["sunday", "wednesday"]).headI).description = w.description ∧
      ((rescheduleWeek c4WeekExample 1 1 1 ["sunday", "wednesday"]).headI).duration_minutes = w.duration_minutes ∧
      ((rescheduleWeek c4WeekExample 1 1 1 ["sunday", "wednesday"]).headI).intensity = w.intensity ∧
      ((rescheduleWeek c4WeekExample 1 1 1 ["sunday", "wednesday"]).headI).tired_alternative = w.tired_alternative :=
  ⟨by decide,
    c4_reschedule_preserves_content c4WeekExample 1 1 1 ["sunday", "wednesday"]
      _ (by decide)⟩


lemma zip_get?_eq {α β : Type} :
    ∀ (l1 : List α) (l2 : List β) (i : ℕ) (a : α) (b : β),
      l1.get? i = some a → l2.get? i = some b → (l1.zip l2).get? i = some (a, b) := by
  intro l1
  induction l1 with
  | nil => intro l2 i a b h1 _; simp at h1
  | cons x t ih =>
    intro l2 i a b h1 h2
    cases l2 with
    | nil => simp at h2
    | cons y s =>
      cases i with
      | zero =>
        simp only [List.get?] at h1 h2
        cases h1
        cases h2
        rfl
      | succ j =>
        simp only [List.get?] at h1 h2 ⊢
        exact ih s j a b h1 h2

/-- The easy rows of a rescheduled week are exactly the zip of the
remaining days with the original easy rows, in order. -/
lemma rescheduleWeekNew_easy_filter (weekWorkouts : List Workout) (p u wn : ℕ)
    (ws : ℤ) (newDays : List String) (hdn : dayNumbersOf newDays ≠ []) :
    (rescheduleWeekNew weekWorkouts p u wn ws newDays).filter
        (fun w => ¬ w.is_key_workout ∧ ¬ w.is_long_run) =
      ((rescheduleRemainingDays weekWorkouts (dayNumbersOf newDays)).zip
          (rescheduleEasyRuns weekWorkouts)).map (fun pr =>
        { id := 0, plan_id := p, user_id := u, date := ws + dayOffset pr.1,
          week_number := wn, workout_type := pr.2.workout_type, title := pr.2.title,
          description := pr.2.description, duration_minutes := pr.2.duration_minutes,
          intensity := pr.2.intensity, tired_alternative := pr.2.tired_alternative,
          is_key_workout := false, is_long_run := false, completed := false }) := by
  unfold rescheduleWeekNew
  rw [if_neg (by simp [List.isEmpty_iff, hdn])]
  rw [List.filter_append, List.filter_append]
  rw [List.filter_eq_nil_iff.mpr (fun w hw => by
    simp [rescheduleLongPart_long _ _ _ _ _ _ w hw])]
  rw [List.filter_eq_nil_iff.mpr (fun w hw => by
    simp [(rescheduleKeyPart_key _ _ _ _ _ _ _ w hw).1])]
  rw [List.filter_eq_self.mpr (fun w hw => by
    obtain ⟨pr, _, rfl⟩ := List.mem_map.mp hw
    simp)]
  simp

def c7WeekExample : List Workout :=
  [⟨3, 1, 1, 0, 1, "easy", "Easy Run", "d", 30, "low", "t", false, false, false⟩,
   ⟨2, 1, 1, 1, 1, "tempo", "Tempo Run", "d", 35, "moderate", "t", true, false, false⟩,
   ⟨4, 1, 1, 3, 1, "easy", "Easy Run", "d", 30, "low", "t", false, false, false⟩,
   ⟨1, 1, 1, 5, 1, "long", "Long Run", "d", 60, "low", "t", true, true, false⟩]

/-- C7: the number of easy rows re-created by a reschedule equals
`min(original easy count, remaining day count)`; the i-th easy row takes
the i-th remaining day and the content of the i-th original easy row; and
for the concrete week {long Saturday, tempo Tuesday, easy Monday, easy
Thursday} rescheduled to {Sunday, Wednesday}, only the long run (on
Sunday, date 6) and the tempo run (on Wednesday, date 2) survive — both
easy rows are dropped. -/
theorem c7_reschedule_easy_truncation :
    (∀ (weekWorkouts : List Workout) (p u wn : ℕ) (ws : ℤ) (newDays : List String),
      dayNumbersOf newDays ≠ [] →
      ((rescheduleWeekNew weekWorkouts p u wn ws newDays).filter
          (fun w => ¬ w.is_key_workout ∧ ¬ w.is_long_run)).length =
        min (rescheduleEasyRuns weekWorkouts).length
          (rescheduleRemainingDays weekWorkouts (dayNumbersOf newDays)).length) ∧
    (∀ (weekWorkouts : List Workout) (p u wn : ℕ) (ws : ℤ) (newDays : List String)
        (i d : ℕ) (e : Workout),
      dayNumbersOf newDays ≠ [] →
      (rescheduleRemainingDays weekWorkouts (dayNumbersOf newDays)).get? i = some d →
      (rescheduleEasyRuns weekWorkouts).get? i = some e →
      ((rescheduleWeekNew weekWorkouts p u wn ws newDays).filter
          (fun w => ¬ w.is_key_workout ∧ ¬ w.is_long_run)).get? i =
        some { id := 0, plan_id := p, user_id := u, date := ws + dayOffset d,
               week_number := wn, workout_type := e.workout_type, title := e.title,
               description := e.description, duration_minutes := e.duration_minutes,
               intensity := e.intensity, tired_alternative := e.tired_alternative,
               is_key_workout := false, is_long_run := false, completed := false }) ∧
    (rescheduleWeek c7WeekExample 1 1 1 ["sunday", "wednesday"]).map
        (fun w => (w.workout_type, w.date)) = [("long", 6), ("tempo", 2)] := by
  refine ⟨?_, ?_, by decide⟩
  · intro weekWorkouts p u wn ws newDays hdn
    rw [rescheduleWeekNew_easy_filter weekWorkouts p u wn ws newDays hdn]
    rw [List.length_map, List.length_zip]
    exact Nat.min_comm _ _
  · intro weekWorkouts p u wn ws newDays i d e hdn hd he
    rw [rescheduleWeekNew_easy_filter weekWorkouts p u wn ws newDays hdn]
    rw [List.get?_map, zip_get?_eq _ _ i d e hd he]
    rfl

/-- Witness for C7 at the concrete scenario: 2 original easy rows, 0
remaining days, 0 re-created easy rows. -/
theorem c7_reschedule_easy_truncation_witness :
    dayNumbersOf ["sunday", "wednesday"] ≠ [] ∧
    ((rescheduleWeekNew c7WeekExample 1 1 1 0 ["sunday", "wednesday"]).filter
        (fun w => ¬ w.is_key_workout ∧ ¬ w.is_long_run)).length =
      min (rescheduleEasyRuns c7WeekExample).length
        (rescheduleRemainingDays c7WeekExample
          (dayNumbersOf ["sunday", "wednesday"])).length :=
  ⟨by decide,
    c7_reschedule_easy_truncation.1 c7WeekExample 1 1 1 0 ["sunday", "wednesday"]
      (by decide)⟩


/-- A row of the `run_logs` table (the columns read by autoAdjust.js).
`effort_level` and `pain_level` are nullable; `workout_id` is null for
unplanned runs. -/
structure RunLog where
  id : ℕ
  user_id : ℕ
  workout_id : Option ℕ
  date : ℤ
  completed : Bool
  duration_minutes : ℤ
  effort_level : Option ℚ
  pain_level : Option ℚ
deriving DecidableEq, Repr

/-- A row of the `training_plans` table joined with its goal's active flag
(the `JOIN goals ... WHERE g.is_active = 1` of autoAdjust.js line 118). -/
structure TrainingPlan where
  id : ℕ
  user_id : ℕ
  goal_is_active : Bool
deriving DecidableEq, Repr

/-- A row of the `weekly_adjustments` table. -/
structure AdjustmentRow where
  user_id : ℕ
  plan_id : ℕ
  week_number : ℕ
  adjustment_type : String
  reason : String
deriving DecidableEq, Repr

/-- The tables touched by the adjustment engine. -/
structure Db where
  plans : List TrainingPlan
  workouts : List Workout
  run_logs : List RunLog
  weekly_adjustments : List AdjustmentRow
deriving DecidableEq, Repr

/-- `WeeklyStats` (autoAdjust.js lines 37-45). -/
structure WeeklyStats where
  totalRuns : ℕ
  completedRuns : ℕ
  plannedRuns : ℕ
  averageEffort : ℚ
  averagePain : ℚ
  totalMinutes : ℤ
  missedKeyWorkouts : ℕ
deriving DecidableEq, Repr

/-- The planned workouts of the target week LEFT JOINed with their run logs
(autoAdjust.js lines 17-23): one row per (workout, matching log) pair, or a
single row with a null log when no log references the workout. -/
def plannedWorkoutRows (db : Db) (userId : ℕ) (weekStart weekEnd : ℤ) :
    List (Workout × Option RunLog) :=
  (db.workouts.filter (fun w =>
      w.user_id = userId ∧ weekStart ≤ w.date ∧ w.date ≤ weekEnd)).bind (fun w =>
    let logs := db.run_logs.filter (fun l => l.workout_id = some w.id)
    if logs.isEmpty then [(w, none)] else logs.map (fun l => (w, some l)))

/-- `rl.completed === 1` on a joined row (null log rows fail the test). -/
def rowCompleted (r : Workout × Option RunLog) : Bool :=
  match r.2 with
  | some l => l.completed
  | none => false

/-- `analyzeWeeklyPerformance` (autoAdjust.js lines 12-46) for the week
`weekOffset` weeks before `today`: null when the athlete had no planned
workouts in that week's date range, otherwise the aggregated stats over the
planned workouts and ALL logs (planned and unplanned) in range. -/
def analyzeWeeklyPerformance (db : Db) (userId : ℕ) (today : ℤ)
    (weekOffset : ℕ) : Option WeeklyStats :=
  let targetWeek := today - 7 * (weekOffset : ℤ)
  let weekStart := startOfWeekMon targetWeek
  let weekEnd := weekStart + 6
  let plannedWorkouts := plannedWorkoutRows db userId weekStart weekEnd
  if plannedWorkouts.isEmpty then none else
  let allLogs := db.run_logs.filter (fun l =>
    l.user_id = userId ∧ weekStart ≤ l.date ∧ l.date ≤ weekEnd)
  let completedPlanned := plannedWorkouts.filter (fun r => rowCompleted r)
  let missedKeyWorkouts := (plannedWorkouts.filter (fun r =>
    (r.1.is_key_workout ∨ r.1.is_long_run) ∧ ¬ rowCompleted r)).length
  let effortSum := allLogs.foldl (fun s l => s + l.effort_level.getD 0) (0 : ℚ)
  let painSum := allLogs.foldl (fun s l => s + l.pain_level.getD 0) (0 : ℚ)
  let totalMinutes := allLogs.foldl (fun s l => s + l.duration_minutes) (0 : ℤ)
  some { totalRuns := allLogs.length,
         completedRuns := completedPlanned.length,
         plannedRuns := plannedWorkouts.length,
         averageEffort := if 0 < allLogs.length then
           effortSum / (allLogs.length : ℚ) else 0,
         averagePain := if 0 < allLogs.length then
           painSum / (allLogs.length : ℚ) else 0,
         totalMinutes := totalMinutes,
         missedKeyWorkouts := missedKeyWorkouts }

/-- An adjustment recommendation (autoAdjust.js). -/
structure Recommendation where
  type : String
  reason : String
  volumeMultiplier : ℚ
  intensityAdjustment : ℤ
deriving DecidableEq, Repr

/-- `completedRuns / plannedRuns`, 0 when no runs were planned
(autoAdjust.js lines 58-60). -/
def completionRate (stats : WeeklyStats) : ℚ :=
  if 0 < stats.plannedRuns then (stats.completedRuns : ℚ) / (stats.plannedRuns : ℚ)
  else 0

/-- `getAdjustmentRecommendation` (autoAdjust.js lines 47-103): the
first-match-wins rule cascade. -/
def getAdjustmentRecommendation (stats : WeeklyStats) : Recommendation :=
  if 5 ≤ stats.averagePain then
    { type := "reduce",
      reason := "Pain levels are elevated. Reducing training to aid recovery.",
      volumeMultiplier := 7/10, intensityAdjustment := -1 }
  else if completionRate stats < 1/2 then
    { type := "reduce",
      reason := "Low workout completion rate. Adjusting plan to be more achievable.",
      volumeMultiplier := 8/10, intensityAdjustment := 0 }
  else if 2 ≤ stats.missedKeyWorkouts then
    { type := "reduce",
      reason := "Missing key workouts. Reducing volume to prioritize important sessions.",
      volumeMultiplier := 85/100, intensityAdjustment := 0 }
  else if 8 ≤ stats.averageEffort ∧ 4/5 ≤ completionRate stats then
    { type := "maintain",
      reason := "Training feels hard but manageable. Maintaining current level.",
      volumeMultiplier := 1, intensityAdjustment := 0 }
  else if stats.averageEffort < 6 ∧ 9/10 ≤ completionRate stats ∧
      stats.averagePain < 2 then
    { type := "increase",
      reason := "Consistent training with low perceived effort. Gradually increasing.",
      volumeMultiplier := 21/20, intensityAdjustment := 0 }
  else
    { type := "maintain",
      reason := "Training is progressing well. Maintaining current plan.",
      volumeMultiplier := 1, intensityAdjustment := 0 }

/-- The per-workout duration update of `applyWeeklyAdjustment` (autoAdjust.js
lines 144-152): key and long-run workouts are protected from reductions
harsher than 15%. -/
def adjustedDuration (rec : Recommendation) (w : Workout) : ℤ :=
  let multiplier := if (w.is_key_workout ∨ w.is_long_run) ∧ rec.type = "reduce"
    then max rec.volumeMultiplier (85/100) else rec.volumeMultiplier
  jsRound ((w.duration_minutes : ℚ) * multiplier)

/-- The `UPDATE` loop of `applyWeeklyAdjustment` over the selected future
workouts (plan rows dated on/after the current week start and not yet
completed), applied to the whole table. -/
def adjustFutureWorkouts (rec : Recommendation) (planId : ℕ) (weekStart : ℤ)
    (workouts : List Workout) : List Workout :=
  workouts.map (fun w =>
    if w.plan_id = planId ∧ weekStart ≤ w.date ∧ w.completed = false then
      { w with duration_minutes := adjustedDuration rec w }
    else w)

/-- `ORDER BY date ASC LIMIT 1` (autoAdjust.js lines 127-131): the earliest
row by date, first in table order on ties. -/
def firstByDate (l : List Workout) : Option Workout :=
  l.foldl (fun acc w =>
    match acc with
    | none => some w
    | some b => if w.date < b.date then some w else acc) none

/-- The result of `applyWeeklyAdjustment`: the `applied` flag, the
recommendation (null when the stats were null), and the database after the
call. -/
structure ApplyResult where
  applied : Bool
  adjustment : Option Recommendation
  db : Db
deriving DecidableEq, Repr

/-- `applyWeeklyAdjustment` (autoAdjust.js lines 104-159): analyze last
week; stop without change when there are no stats, the recommendation is
maintain, no active plan exists, or the plan has no workout dated on/after
the current week start; otherwise scale every future uncompleted workout of
the plan and append one adjustment row. -/
def applyWeeklyAdjustment (db : Db) (userId : ℕ) (today : ℤ) : ApplyResult :=
  match analyzeWeeklyPerformance db userId today 1 with
  | none => ⟨false, none, db⟩
  | some stats =>
    let recommendation := getAdjustmentRecommendation stats
    if recommendation.type = "maintain" then ⟨false, some recommendation, db⟩ else
    let weekStart := startOfWeekMon today
    match db.plans.find? (fun p => p.user_id = userId ∧ p.goal_is_active) with
    | none => ⟨false, some recommendation, db⟩
    | some plan =>
      match firstByDate (db.workouts.filter (fun w =>
          w.plan_id = plan.id ∧ weekStart ≤ w.date)) with
      | none => ⟨false, some recommendation, db⟩
      | some currentWorkout =>
        ⟨true, some recommendation,
          { db with
            workouts := adjustFutureWorkouts recommendation plan.id weekStart
              db.workouts,
            weekly_adjustments := db.weekly_adjustments ++
              [⟨userId, plan.id, currentWorkout.week_number,
                recommendation.type, recommendation.reason⟩] }⟩


/-- C6: `getAdjustmentRecommendation` is a pure function of the stats that
evaluates its rules in a fixed order with the first match winning: elevated
pain, low completion, missed key workouts, high-effort maintain, low-effort
increase, default maintain; in particular full completion with average pain
6 still classifies as reduce with multiplier 0.7 and intensity adjustment
-1. -/
theorem c6_recommendation_rule_order :
    (∀ s : WeeklyStats,
      (5 ≤ s.averagePain →
        getAdjustmentRecommendation s =
          ⟨"reduce", "Pain levels are elevated. Reducing training to aid recovery.",
            7/10, -1⟩) ∧
      (s.averagePain < 5 → completionRate s < 1/2 →
        getAdjustmentRecommendation s =
          ⟨"reduce",
            "Low workout completion rate. Adjusting plan to be more achievable.",
            8/10, 0⟩) ∧
      (s.averagePain < 5 → ¬ completionRate s < 1/2 → 2 ≤ s.missedKeyWorkouts →
        getAdjustmentRecommendation s =
          ⟨"reduce",
            "Missing key workouts. Reducing volume to prioritize important sessions.",
            85/100, 0⟩) ∧
      (s.averagePain < 5 → ¬ completionRate s < 1/2 → s.missedKeyWorkouts < 2 →
        8 ≤ s.averageEffort → 4/5 ≤ completionRate s →
        getAdjustmentRecommendation s =
          ⟨"maintain",
            "Training feels hard but manageable. Maintaining current level.", 1, 0⟩) ∧
      (s.averagePain < 5 → ¬ completionRate s < 1/2 → s.missedKeyWorkouts < 2 →
        ¬ (8 ≤ s.averageEffort ∧ 4/5 ≤ completionRate s) →
        s.averageEffort < 6 → 9/10 ≤ completionRate s → s.averagePain < 2 →
        getAdjustmentRecommendation s =
          ⟨"increase",
            "Consistent training with low perceived effort. Gradually increasing.",
            21/20, 0⟩) ∧
      (s.averagePain < 5 → ¬ completionRate s < 1/2 → s.missedKeyWorkouts < 2 →
        ¬ (8 ≤ s.averageEffort ∧ 4/5 ≤ completionRate s) →
        ¬ (s.averageEffort < 6 ∧ 9/10 ≤ completionRate s ∧ s.averagePain < 2) →
        getAdjustmentRecommendation s =
          ⟨"maintain", "Training is progressing well. Maintaining current plan.",
            1, 0⟩)) ∧
    getAdjustmentRecommendation ⟨4, 4, 4, 5, 6, 120, 0⟩ =
      ⟨"reduce", "Pain levels are elevated. Reducing training to aid recovery.",
        7/10, -1⟩ := by
  refine ⟨?_, by decide⟩
  intro s
  refine ⟨?_, ?_, ?_, ?_, ?_, ?_⟩
  · intro h1
    unfold getAdjustmentRecommendation
    rw [if_pos h1]
  · intro h1 h2
    unfold getAdjustmentRecommendation
    rw [if_neg (not_le.mpr h1), if_pos h2]
  · intro h1 h2 h3
    unfold getAdjustmentRecommendation
    rw [if_neg (not_le.mpr h1), if_neg h2, if_pos h3]
  · intro h1 h2 h3 h4 h5
    unfold getAdjustmentRecommendation
    rw [if_neg (not_le.mpr h1), if_neg h2, if_neg (not_le.mpr h3), if_pos ⟨h4, h5⟩]
  · intro h1 h2 h3 h4 h5 h6 h7
    unfold getAdjustmentRecommendation
    rw [if_neg (not_le.mpr h1), if_neg h2, if_neg (not_le.mpr h3), if_neg h4,
      if_pos ⟨h5, h6, h7⟩]
  · intro h1 h2 h3 h4 h5
    unfold getAdjustmentRecommendation
    rw [if_neg (not_le.mpr h1), if_neg h2, if_neg (not_le.mpr h3), if_neg h4,
      if_neg h5]

/-- Witness for C6: the pain rule fires despite full completion. -/
theorem c6_recommendation_rule_order_witness :
    5 ≤ ((⟨4, 4, 4, 5, 6, 120, 0⟩ : WeeklyStats).averagePain) ∧
    getAdjustmentRecommendation ⟨4, 4, 4, 5, 6, 120, 0⟩ =
      ⟨"reduce", "Pain levels are elevated. Reducing training to aid recovery.",
        7/10, -1⟩ :=
  ⟨by decide, (c6_recommendation_rule_order.1 ⟨4, 4, 4, 5, 6, 120, 0⟩).1 (by decide)⟩

def c8Db : Db :=
  { plans := [⟨1, 1, true⟩],
    workouts :=
      [⟨1, 1, 1, 0, 1, "easy", "Easy Run", "d", 30, "low", "t", false, false, true⟩,
       ⟨2, 1, 1, 7, 2, "easy", "Easy Run", "d", 60, "low", "t", false, false, false⟩],
    run_logs := [⟨1, 1, some 1, 0, true, 30, some 5, some 0⟩],
    weekly_adjustments := [] }

/-- C8: `applyWeeklyAdjustment` is not idempotent. In the concrete state
`c8Db` the previous week classifies as increase (multiplier 1.05); the
60-minute future workout becomes 63 minutes after one application and 66
minutes after a second application under the same classification —
`round(63 * 1.05) = 66`, compounding on the already-adjusted duration
instead of re-deriving `66.15` from 60. -/
theorem c8_apply_adjustment_compounds :
    (applyWeeklyAdjustment c8Db 1 7).applied = true ∧
    (applyWeeklyAdjustment c8Db 1 7).adjustment.map Recommendation.type =
      some "increase" ∧
    (applyWeeklyAdjustment c8Db 1 7).adjustment.map Recommendation.volumeMultiplier =
      some (21/20) ∧
    ((applyWeeklyAdjustment c8Db 1 7).db.workouts.find? (fun w => w.id = 2)).map
      Workout.duration_minutes = some 63 ∧
    ((applyWeeklyAdjustment (applyWeeklyAdjustment c8Db 1 7).db 1 7).db.workouts.find?
      (fun w => w.id = 2)).map Workout.duration_minutes = some 66 ∧
    jsRound ((60 : ℚ) * (21/20)) = 63 ∧
    jsRound ((63 : ℚ) * (21/20)) = 66 ∧
    (applyWeeklyAdjustment (applyWeeklyAdjustment c8Db 1 7).db 1 7).db.workouts ≠
      (applyWeeklyAdjustment c8Db 1 7).db.workouts := by
  decide


/-- When all four guards pass, `applyWeeklyAdjustment` scales the future
workouts and appends one adjustment row. -/
lemma applyWeeklyAdjustment_applied_eq (db : Db) (userId : ℕ) (today : ℤ)
    (stats : WeeklyStats) (plan : TrainingPlan) (cw : Workout)
    (hstats : analyzeWeeklyPerformance db userId today 1 = some stats)
    (hne : ¬ (getAdjustmentRecommendation stats).type = "maintain")
    (hplan : db.plans.find? (fun p => p.user_id = userId ∧ p.goal_is_active) =
      some plan)
    (hcw : firstByDate (db.workouts.filter (fun w =>
        w.plan_id = plan.id ∧ startOfWeekMon today ≤ w.date)) = some cw) :
    applyWeeklyAdjustment db userId today =
      ⟨true, some (getAdjustmentRecommendation stats),
        { db with
          workouts := adjustFutureWorkouts (getAdjustmentRecommendation stats)
            plan.id (startOfWeekMon today) db.workouts,
          weekly_adjustments := db.weekly_adjustments ++
            [⟨userId, plan.id, cw.week_number,
              (getAdjustmentRecommendation stats).type,
              (getAdjustmentRecommendation stats).reason⟩] }⟩ := by
  unfold applyWeeklyAdjustment
  rw [hstats]
  simp only [hne, if_false, hplan, hcw]

/-- C5: whenever `applyWeeklyAdjustment` applies a reduce recommendation,
every not-yet-completed workout of the plan dated on/after the current
week start that carries the key-workout or long-run flag gets duration
`round(old * max(multiplier, 0.85))` — hence at least `round(0.85 * old)`
for a non-negative old duration — while the unprotected ones get
`round(old * multiplier)`. -/
theorem c5_reduce_protects_key_and_long
    (db : Db) (userId : ℕ) (today : ℤ) (stats : WeeklyStats)
    (plan : TrainingPlan) (cw : Workout)
    (hstats : analyzeWeeklyPerformance db userId today 1 = some stats)
    (hreduce : (getAdjustmentRecommendation stats).type = "reduce")
    (hplan : db.plans.find? (fun p => p.user_id = userId ∧ p.goal_is_active) =
      some plan)
    (hcw : firstByDate (db.workouts.filter (fun w =>
        w.plan_id = plan.id ∧ startOfWeekMon today ≤ w.date)) = some cw) :
    ∀ (i : ℕ) (w : Workout), db.workouts.get? i = some w →
      w.plan_id = plan.id → startOfWeekMon today ≤ w.date → w.completed = false →
      ((w.is_key_workout ∨ w.is_long_run →
        (applyWeeklyAdjustment db userId today).db.workouts.get? i =
          some { w with
                 duration_minutes :=
                   jsRound ((w.duration_minutes : ℚ) *
                     max (getAdjustmentRecommendation stats).volumeMultiplier
                       (85/100)) } ∧
        (0 ≤ w.duration_minutes →
          jsRound ((85/100) * (w.duration_minutes : ℚ)) ≤
            jsRound ((w.duration_minutes : ℚ) *
              max (getAdjustmentRecommendation stats).volumeMultiplier (85/100)))) ∧
      (¬ (w.is_key_workout ∨ w.is_long_run) →
        (applyWeeklyAdjustment db userId today).db.workouts.get? i =
          some { w with
                 duration_minutes :=
                   jsRound ((w.duration_minutes : ℚ) *
                     (getAdjustmentRecommendation stats).volumeMultiplier) })) := by
  intro i w hget hpl hdate hcomp
  have hne : ¬ (getAdjustmentRecommendation stats).type = "maintain" := by
    rw [hreduce]; decide
  have happly := applyWeeklyAdjustment_applied_eq db userId today stats plan cw
    hstats hne hplan hcw
  rw [happly]
  constructor
  · intro hkey
    constructor
    · show (adjustFutureWorkouts (getAdjustmentRecommendation stats) plan.id
          (startOfWeekMon today) db.workouts).get? i = _
      unfold adjustFutureWorkouts
      rw [List.get?_map, hget]
      simp only [Option.map_some']
      rw [if_pos ⟨hpl, hdate, hcomp⟩]
      unfold adjustedDuration
      rw [if_pos ⟨hkey, hreduce⟩]
    · intro hdur
      unfold jsRound
      apply Int.floor_le_floor
      have h85 : (85/100 : ℚ) ≤
          max (getAdjustmentRecommendation stats).volumeMultiplier (85/100) :=
        le_max_right _ _
      have hd0 : (0 : ℚ) ≤ (w.duration_minutes : ℚ) := by exact_mod_cast hdur
      have hmul := mul_le_mul_of_nonneg_left h85 hd0
      linarith
  · intro hnkey
    show (adjustFutureWorkouts (getAdjustmentRecommendation stats) plan.id
        (startOfWeekMon today) db.workouts).get? i = _
    unfold adjustFutureWorkouts
    rw [List.get?_map, hget]
    simp only [Option.map_some']
    rw [if_pos ⟨hpl, hdate, hcomp⟩]
    unfold adjustedDuration
    rw [if_neg (fun hc => hnkey hc.1)]


def c5Db : Db :=
  { plans := [⟨1, 1, true⟩],
    workouts :=
      [⟨1, 1, 1, 0, 1, "easy", "Easy Run", "d", 30, "low", "t", false, false, false⟩,
       ⟨2, 1, 1, 7, 2, "long", "Long Run", "d", 60, "low", "t", true, true, false⟩],
    run_logs := [],
    weekly_adjustments := [] }

def c5Stats : WeeklyStats := ⟨0, 0, 1, 0, 0, 0, 0⟩

def c5Future : Workout :=
  ⟨2, 1, 1, 7, 2, "long", "Long Run", "d", 60, "low", "t", true, true, false⟩

/-- Witness for C5: a reduce adjustment (multiplier 0.8) raises the
protected long run from 60 to `round(60 * 0.85)` rather than
`round(60 * 0.8)`. -/
theorem c5_reduce_protects_key_and_long_witness :
    analyzeWeeklyPerformance c5Db 1 7 1 = some c5Stats ∧
    (getAdjustmentRecommendation c5Stats).type = "reduce" ∧
    c5Db.plans.find? (fun p => p.user_id = 1 ∧ p.goal_is_active) =
      some ⟨1, 1, true⟩ ∧
    firstByDate (c5Db.workouts.filter (fun w =>
      w.plan_id = (⟨1, 1, true⟩ : TrainingPlan).id ∧ startOfWeekMon 7 ≤ w.date)) =
      some c5Future ∧
    c5Db.workouts.get? 1 = some c5Future ∧
    (applyWeeklyAdjustment c5Db 1 7).db.workouts.get? 1 =
      some { c5Future with
             duration_minutes :=
               jsRound ((c5Future.duration_minutes : ℚ) *
                 max (getAdjustmentRecommendation c5Stats).volumeMultiplier
                   (85/100)) } :=
  ⟨by decide, by decide, by decide, by decide, by decide,
    ((c5_reduce_protects_key_and_long c5Db 1 7 c5Stats ⟨1, 1, true⟩ c5Future
        (by decide) (by decide) (by decide) (by decide) 1 c5Future
        (by decide) (by decide) (by decide) (by decide)).1 (by decide)).1⟩

lemma plannedWorkoutRows_eq_nil_iff (db : Db) (u : ℕ) (ws we : ℤ) :
    plannedWorkoutRows db u ws we = [] ↔
      db.workouts.filter (fun w => w.user_id = u ∧ ws ≤ w.date ∧ w.date ≤ we) = [] := by
  unfold plannedWorkoutRows
  rw [List.bind_eq_nil]
  constructor
  · intro h
    by_contra hne
    obtain ⟨w, hw⟩ := List.exists_mem_of_ne_nil _ hne
    have hrow := h w hw
    by_cases hl : (db.run_logs.filter (fun l => l.workout_id = some w.id)).isEmpty
    · rw [if_pos hl] at hrow
      cases hrow
    · rw [if_neg hl] at hrow
      have hnil := List.map_eq_nil.mp hrow
      rw [List.isEmpty_iff] at hl
      exact hl hnil
  · intro h w hw
    rw [h] at hw
    cases hw

lemma analyzeWeeklyPerformance_none_iff (db : Db) (u : ℕ) (today : ℤ) (off : ℕ) :
    analyzeWeeklyPerformance db u today off = none ↔
      db.workouts.filter (fun w =>
        w.user_id = u ∧ startOfWeekMon (today - 7 * (off : ℤ)) ≤ w.date ∧
        w.date ≤ startOfWeekMon (today - 7 * (off : ℤ)) + 6) = [] := by
  rw [← plannedWorkoutRows_eq_nil_iff]
  unfold analyzeWeeklyPerformance
  by_cases h : (plannedWorkoutRows db u (startOfWeekMon (today - 7 * (off : ℤ)))
      (startOfWeekMon (today - 7 * (off : ℤ)) + 6)).isEmpty
  · rw [if_pos h]
    rw [List.isEmpty_iff] at h
    simp [h]
  · rw [if_neg h]
    rw [List.isEmpty_iff] at h
    simp [h]

/-- C9: `analyzeWeeklyPerformance` is null exactly when the athlete has no
planned workout in the target week's range; `applyWeeklyAdjustment` is a
no-op result (applied = false, tables unchanged, no adjustment row) when
the stats are null, the classification is maintain, no active plan exists,
or no workout is dated on/after the current week start; and
`rescheduleWeek` leaves the table unchanged when the target week has no
workouts. -/
theorem c9_noop_conditions :
    (∀ (db : Db) (userId : ℕ) (today : ℤ) (weekOffset : ℕ),
      analyzeWeeklyPerformance db userId today weekOffset = none ↔
        db.workouts.filter (fun w =>
          w.user_id = userId ∧
          startOfWeekMon (today - 7 * (weekOffset : ℤ)) ≤ w.date ∧
          w.date ≤ startOfWeekMon (today - 7 * (weekOffset : ℤ)) + 6) = []) ∧
    (∀ (db : Db) (userId : ℕ) (today : ℤ),
      analyzeWeeklyPerformance db userId today 1 = none →
      applyWeeklyAdjustment db userId today = ⟨false, none, db⟩) ∧
    (∀ (db : Db) (userId : ℕ) (today : ℤ) (stats : WeeklyStats),
      analyzeWeeklyPerformance db userId today 1 = some stats →
      (getAdjustmentRecommendation stats).type = "maintain" →
      applyWeeklyAdjustment db userId today =
        ⟨false, some (getAdjustmentRecommendation stats), db⟩) ∧
    (∀ (db : Db) (userId : ℕ) (today : ℤ) (stats : WeeklyStats),
      analyzeWeeklyPerformance db userId today 1 = some stats →
      ¬ (getAdjustmentRecommendation stats).type = "maintain" →
      db.plans.find? (fun p => p.user_id = userId ∧ p.goal_is_active) = none →
      applyWeeklyAdjustment db userId today =
        ⟨false, some (getAdjustmentRecommendation stats), db⟩) ∧
    (∀ (db : Db) (userId : ℕ) (today : ℤ) (stats : WeeklyStats)
        (plan : TrainingPlan),
      analyzeWeeklyPerformance db userId today 1 = some stats →
      ¬ (getAdjustmentRecommendation stats).type = "maintain" →
      db.plans.find? (fun p => p.user_id = userId ∧ p.goal_is_active) = some plan →
      firstByDate (db.workouts.filter (fun w =>
        w.plan_id = plan.id ∧ startOfWeekMon today ≤ w.date)) = none →
      applyWeeklyAdjustment db userId today =
        ⟨false, some (getAdjustmentRecommendation stats), db⟩) ∧
    (∀ (allWorkouts : List Workout) (planId userId weekNumber : ℕ)
        (newDays : List String),
      allWorkouts.filter (fun w =>
        w.plan_id = planId ∧ w.user_id = userId ∧ w.week_number = weekNumber) = [] →
      rescheduleWeek allWorkouts planId userId weekNumber newDays = allWorkouts) := by
  refine ⟨analyzeWeeklyPerformance_none_iff, ?_, ?_, ?_, ?_, ?_⟩
  · intro db userId today h
    unfold applyWeeklyAdjustment
    rw [h]
  · intro db userId today stats hstats hmaint
    unfold applyWeeklyAdjustment
    rw [hstats]
    simp only [hmaint, if_true]
  · intro db userId today stats hstats hne hplan
    unfold applyWeeklyAdjustment
    rw [hstats]
    simp only [hne, if_false, hplan]
  · intro db userId today stats plan hstats hne hplan hcw
    unfold applyWeeklyAdjustment
    rw [hstats]
    simp only [hne, if_false, hplan, hcw]
  · intro allWorkouts planId userId weekNumber newDays h
    unfold rescheduleWeek
    rw [h]

def c9EmptyDb : Db := ⟨[], [], [], []⟩

def c9MaintainDb : Db :=
  { plans := [],
    workouts :=
      [⟨1, 1, 1, 0, 1, "easy", "Easy Run", "d", 30, "low", "t", false, false, true⟩],
    run_logs := [⟨1, 1, some 1, 0, true, 30, some 7, some 0⟩],
    weekly_adjustments := [] }

def c9MaintainStats : WeeklyStats := ⟨1, 1, 1, 7, 0, 30, 0⟩

def c9NoPlanDb : Db :=
  { plans := [],
    workouts :=
      [⟨1, 1, 1, 0, 1, "easy", "Easy Run", "d", 30, "low", "t", false, false, false⟩],
    run_logs := [],
    weekly_adjustments := [] }

def c9NoPlanStats : WeeklyStats := ⟨0, 0, 1, 0, 0, 0, 0⟩

def c9NoCurrentDb : Db :=
  { plans := [⟨1, 1, true⟩],
    workouts :=
      [⟨1, 1, 1, 0, 1, "easy", "Easy Run", "d", 30, "low", "t", false, false, false⟩],
    run_logs := [],
    weekly_adjustments := [] }

/-- Witness for C9 at concrete inputs, one per no-op condition. -/
theorem c9_noop_conditions_witness :
    analyzeWeeklyPerformance c9EmptyDb 1 7 1 = none ∧
    applyWeeklyAdjustment c9EmptyDb 1 7 = ⟨false, none, c9EmptyDb⟩ ∧
    applyWeeklyAdjustment c9MaintainDb 1 7 =
      ⟨false, some (getAdjustmentRecommendation c9MaintainStats), c9MaintainDb⟩ ∧
    applyWeeklyAdjustment c9NoPlanDb 1 7 =
      ⟨false, some (getAdjustmentRecommendation c9NoPlanStats), c9NoPlanDb⟩ ∧
    applyWeeklyAdjustment c9NoCurrentDb 1 7 =
      ⟨false, some (getAdjustmentRecommendation c9NoPlanStats), c9NoCurrentDb⟩ ∧
    rescheduleWeek [] 1 1 1 ["sunday"] = [] :=
  ⟨(c9_noop_conditions.1 c9EmptyDb 1 7 1).mpr (by decide),
    c9_noop_conditions.2.1 c9EmptyDb 1 7 (by decide),
    c9_noop_conditions.2.2.1 c9MaintainDb 1 7 c9MaintainStats (by decide) (by decide),
    c9_noop_conditions.2.2.2.1 c9NoPlanDb 1 7 c9NoPlanStats (by decide) (by decide)
      (by decide),
    c9_noop_conditions.2.2.2.2.1 c9NoCurrentDb 1 7 c9NoPlanStats ⟨1, 1, true⟩
      (by decide) (by decide) (by decide) (by decide),
    c9_noop_conditions.2.2.2.2.2 [] 1 1 1 ["sunday"] (by decide)⟩


/-- C10: `generateTrainingPlan` never fails on an unrecognized enum value:
an unknown race distance falls back to the 5k configuration (150 peak
weekly minutes), an unknown experience level falls back to multiplier 1.0,
and a full plan (one generated week per week number, at least one week) is
produced for every goal. -/
theorem c10_unknown_enum_fallbacks :
    (∀ s : String, s ≠ "5k" → s ≠ "10k" → s ≠ "half" → s ≠ "marathon" →
      raceConfigOf s = raceConfig5k ∧ (raceConfigOf s).peakWeeklyMinutes = 150) ∧
    (∀ s : String, s ≠ "beginner" → s ≠ "intermediate" → s ≠ "advanced" →
      experienceMultiplierOf s = 1) ∧
    (∀ (planId : ℕ) (goal : Goal) (today : ℤ) (totalWeeks : ℕ),
      (generatePlanWeeks planId goal today totalWeeks).length = totalWeeks) ∧
    (∀ (planId : ℕ) (goal : Goal) (today raceDate : ℤ),
      1 ≤ (generateTrainingPlan planId goal today raceDate).length) := by
  refine ⟨?_, ?_, ?_, ?_⟩
  · intro s h1 h2 h3 h4
    have hfind : raceConfigFind s = none := by
      unfold raceConfigFind
      rw [if_neg h1, if_neg h2, if_neg h3, if_neg h4]
    constructor
    · unfold raceConfigOf
      rw [hfind]
      rfl
    · unfold raceConfigOf
      rw [hfind]
      rfl
  · intro s h1 h2 h3
    unfold experienceMultiplierOf experienceMultiplierFind
    rw [if_neg h1, if_neg h2, if_neg h3]
    rfl
  · intro planId goal today totalWeeks
    unfold generatePlanWeeks
    rw [List.length_map, List.length_range]
  · intro planId goal today raceDate
    unfold generateTrainingPlan
    rw [show (generatePlanWeeks planId goal today
        (max 1 ((raceDate - today).tdiv 7)).toNat).length =
        (max 1 ((raceDate - today).tdiv 7)).toNat from by
      unfold generatePlanWeeks
      rw [List.length_map, List.length_range]]
    have h1 : (1 : ℤ) ≤ max 1 ((raceDate - today).tdiv 7) := le_max_left _ _
    have := Int.toNat_le_toNat h1
    simpa using this

def c10Goal : Goal :=
  ⟨1, 1, "ultramarathon", "expert", 3, 30, ["monday", "wednesday", "saturday"], 60, 90⟩

/-- Witness for C10 at concrete unknown enum values. -/
theorem c10_unknown_enum_fallbacks_witness :
    raceConfigOf "ultramarathon" = raceConfig5k ∧
    (raceConfigOf "ultramarathon").peakWeeklyMinutes = 150 ∧
    experienceMultiplierOf "expert" = 1 ∧
    (generatePlanWeeks 1 c10Goal 0 4).length = 4 ∧
    1 ≤ (generateTrainingPlan 1 c10Goal 0 70).length :=
  ⟨(c10_unknown_enum_fallbacks.1 "ultramarathon" (by decide) (by decide) (by decide)
      (by decide)).1,
    (c10_unknown_enum_fallbacks.1 "ultramarathon" (by decide) (by decide) (by decide)
      (by decide)).2,
    c10_unknown_enum_fallbacks.2.1 "expert" (by decide) (by decide) (by decide),
    c10_unknown_enum_fallbacks.2.2.1 1 c10Goal 0 4,
    c10_unknown_enum_fallbacks.2.2.2 1 c10Goal 0 70⟩

end
